import Mathlib

/-!
Shallow embedding of `bottomless/src/bottomless_wal.rs`: the `BottomlessWalWrapper`
implementation of `WrapWal` (`savepoint_undo`, `insert_frames`, `checkpoint`).

The wrapped engine (`libsql_sys::wal::Wal`) and the `Replicator` are external
collaborators; their responses appear here as oracle inputs.  The interceptor's
control flow is translated line by line.  `tokio` bridging is sequential in the
embedding: the replicator slot holds the same value for the whole call, since no
concurrent `shutdown` interleaves in a single-call semantics.
-/

namespace BottomlessWal

/-- SQLITE_BUSY error code (libsql_sys::ffi::SQLITE_BUSY). -/
def SQLITE_BUSY : Nat := 5

/-- SQLITE_IOERR_WRITE error code (SQLITE_IOERR | (3 << 8) = 778). -/
def SQLITE_IOERR_WRITE : Nat := 778

/-- `libsql_sys::wal::CheckpointMode`: C-like enum, ordered by discriminant,
`Truncate` strongest. -/
inductive CheckpointMode where
  | Passive
  | Full
  | Restart
  | Truncate
deriving DecidableEq, Repr

/-- Discriminant of a checkpoint mode, giving the derived `PartialOrd` order. -/
def CheckpointMode.toNat : CheckpointMode → Nat
  | .Passive => 0
  | .Full => 1
  | .Restart => 2
  | .Truncate => 3

/-- Rust `mode < CheckpointMode::Truncate` (derived `PartialOrd` on a C-like enum
compares discriminants). -/
def CheckpointMode.ltTruncate (m : CheckpointMode) : Bool :=
  m.toNat < CheckpointMode.Truncate.toNat

/-- Outcome of `tokio::time::timeout(1s, replicator.wait_until_committed(f))`:
the wait resolves Ok, resolves with an error, or exceeds the timeout. -/
inductive WaitOutcome where
  | ok
  | err
  | timeout
deriving DecidableEq, Repr

/-- Oracle view of the `Replicator` (external collaborator): the responses its
methods return during one interceptor call. -/
structure Replicator where
  /-- `replicator.last_known_frame()` -/
  last_known_frame : Nat
  /-- combined outcome of the timed `wait_until_committed` -/
  wait_until_committed : WaitOutcome
  /-- `replicator.is_snapshotted().await` -/
  is_snapshotted : Bool
  /-- whether `replicator.set_page_size(..)` returns `Ok` -/
  set_page_size_ok : Bool
  /-- whether `replicator.snapshot_main_db_file(false).await` returns `Ok` -/
  snapshot_main_db_file_ok : Bool
  /-- `replicator.peek_last_valid_frame()` -/
  peek_last_valid_frame : Nat
deriving DecidableEq, Repr

/-- Oracle view of the wrapped engine (`libsql_sys::wal::Wal`) for
`insert_frames`: only its frame counter is observed by the interceptor. -/
structure WrappedWal where
  /-- `wrapped.frames_in_wal()` -/
  framesInWal : Nat
deriving DecidableEq, Repr

/-- Wrapping `u32` subtraction (Rust `a - b` on `u32` in release mode),
for `a, b < 2 ^ 32`. -/
def u32sub (a b : Nat) : Nat := (a + 2 ^ 32 - b) % 2 ^ 32

/-! ## savepoint_undo -/

/-- Interceptor `savepoint_undo`.  `wrappedResult` is the wrapped engine's
result; `rollback_data` is the content of the `&mut [u32]` slice after the
wrapped call (the slice's length is fixed, so it is empty iff the caller's
array is empty).  `none` models the panic of the unconditional `rollback_data[0]`
index on an empty slice; otherwise the interceptor's returned `Result`. -/
def savepoint_undo (wrappedResult : Except Nat Unit) (rollback_data : List Nat)
    (repl : Option Replicator) : Option (Except Nat Unit) :=
  match wrappedResult with
  | .error e => some (.error e)
  | .ok _ =>
    match rollback_data.head? with
    | none => none
    | some _last_valid_frame =>
      match repl with
      | some _replicator => some (.ok ())
      | none => some (.error SQLITE_IOERR_WRITE)

/-! ## insert_frames -/

/-- Replicator interactions performed by one `insert_frames` call. -/
structure InsEffects where
  /-- `replicator.set_page_size(..)` was called -/
  setPageSize : Bool
  /-- argument of `replicator.register_last_valid_frame(..)`, if called -/
  registerLastValidFrame : Option Nat
  /-- argument of `replicator.submit_frames(..)`, if called -/
  submitFrames : Option Nat
deriving DecidableEq, Repr

/-- No replicator interaction. -/
def noInsEffects : InsEffects :=
  { setPageSize := false, registerLastValidFrame := none, submitFrames := none }

/-- Result of an `insert_frames` call: normal return, error return, or
`std::process::abort()`. -/
inductive InsOutcome where
  | ok (num_frames : Nat)
  | err (code : Nat)
  | abort
deriving DecidableEq, Repr

/-- Interceptor `insert_frames`.  `w` is the wrapped engine before the call;
`insertOutcome` is the wrapped `insert_frames` result together with the
engine's post-insert state (`.error e` leaves the engine at `w`).  Returns
the interceptor's outcome, the wrapped engine's final state, and the
replicator interactions. -/
def insert_frames (w : WrappedWal) (insertOutcome : Except Nat (Nat × WrappedWal))
    (repl : Option Replicator) : InsOutcome × WrappedWal × InsEffects :=
  let last_valid_frame := w.framesInWal
  match insertOutcome with
  | .error e => (.err e, w, noInsEffects)
  | .ok (num_frames, w') =>
    match repl with
    | none => (.err SQLITE_IOERR_WRITE, w', noInsEffects)
    | some replicator =>
      if !replicator.set_page_size_ok then
        (.abort, w', { noInsEffects with setPageSize := true })
      else
        let new_valid_valid_frame_index := w'.framesInWal
        (.ok num_frames, w',
          { setPageSize := true,
            registerLastValidFrame := some last_valid_frame,
            submitFrames := some (u32sub new_valid_valid_frame_index last_valid_frame) })

/-! ## checkpoint -/

/-- Replicator and wrapped-engine interactions performed by one `checkpoint`
call. -/
structure CkptEffects where
  /-- `replicator.request_flush()` was called -/
  requestFlush : Bool
  /-- `replicator.skip_snapshot_for_current_generation()` was called -/
  skipSnapshot : Bool
  /-- the timed `wait_until_committed` was awaited -/
  waitCalled : Bool
  /-- `wrapped.checkpoint(..)` was invoked -/
  wrappedCheckpoint : Bool
  /-- `replicator.new_generation().await` was called -/
  newGeneration : Bool
  /-- `replicator.snapshot_main_db_file(false).await` was called -/
  snapshotMain : Bool
deriving DecidableEq, Repr

/-- No wrapped-engine or replicator interaction. -/
def noCkptEffects : CkptEffects :=
  { requestFlush := false, skipSnapshot := false, waitCalled := false,
    wrappedCheckpoint := false, newGeneration := false, snapshotMain := false }

/-- Interceptor `checkpoint`.  `wrappedResult` is the result the wrapped
engine's `checkpoint` would return if invoked.  Returns the interceptor's
`Result` and the interactions performed. -/
def checkpoint (mode : CheckpointMode) (repl : Option Replicator)
    (wrappedResult : Except Nat Unit) : Except Nat Unit × CkptEffects :=
  if mode.ltTruncate then
    (.error SQLITE_BUSY, noCkptEffects)
  else
    match repl with
    | none => (.error SQLITE_IOERR_WRITE, noCkptEffects)
    | some replicator =>
      let last_known_frame := replicator.last_known_frame
      let eff := { noCkptEffects with requestFlush := true }
      if last_known_frame = 0 then
        (.error SQLITE_BUSY, { eff with skipSnapshot := true })
      else
        let eff := { eff with waitCalled := true }
        match replicator.wait_until_committed with
        | .err => (.error SQLITE_IOERR_WRITE, eff)
        | .timeout => (.error SQLITE_BUSY, eff)
        | .ok =>
          if !replicator.is_snapshotted then
            (.error SQLITE_BUSY, eff)
          else
            let eff := { eff with wrappedCheckpoint := true }
            match wrappedResult with
            | .error e => (.error e, eff)
            | .ok _ =>
              let eff := { eff with newGeneration := true, snapshotMain := true }
              if !replicator.snapshot_main_db_file_ok then
                (.error SQLITE_IOERR_WRITE, eff)
              else
                (.ok (), eff)

/-! ## Theorems -/

/-- C3: For every checkpoint call with a mode weaker than Truncate, the call
returns a busy error and the wrapped engine is not touched at all (no wrapped
checkpoint, no replicator interaction). -/
theorem checkpoint_weak_mode_busy_untouched (mode : CheckpointMode)
    (repl : Option Replicator) (wrappedResult : Except Nat Unit)
    (h : mode.ltTruncate = true) :
    checkpoint mode repl wrappedResult = (.error SQLITE_BUSY, noCkptEffects) := by
  simp [checkpoint, h]

/-- Witness for C3 at mode `Passive`. -/
theorem checkpoint_weak_mode_busy_untouched_witness :
    CheckpointMode.ltTruncate .Passive = true ∧
      checkpoint .Passive none (.ok ()) = (.error SQLITE_BUSY, noCkptEffects) :=
  ⟨rfl, checkpoint_weak_mode_busy_untouched .Passive none (.ok ()) rfl⟩

/-- C6: For every Truncate-mode checkpoint call where the session reports zero
committed frames in the current generation, the snapshot for the current
generation is marked skipped, the call returns busy, and the wrapped
checkpoint is not invoked (the flush request is the only other interaction). -/
theorem checkpoint_zero_frames_skip_snapshot (r : Replicator)
    (wrappedResult : Except Nat Unit) (h : r.last_known_frame = 0) :
    checkpoint .Truncate (some r) wrappedResult =
      (.error SQLITE_BUSY,
        { noCkptEffects with requestFlush := true, skipSnapshot := true }) := by
  simp [checkpoint, CheckpointMode.ltTruncate, CheckpointMode.toNat, h]

/-- Witness for C6: a replicator reporting frame 0. -/
theorem checkpoint_zero_frames_skip_snapshot_witness :
    ({ last_known_frame := 0, wait_until_committed := .ok, is_snapshotted := true,
       set_page_size_ok := true, snapshot_main_db_file_ok := true,
       peek_last_valid_frame := 0 } : Replicator).last_known_frame = 0 ∧
      checkpoint .Truncate
          (some { last_known_frame := 0, wait_until_committed := .ok,
                  is_snapshotted := true, set_page_size_ok := true,
                  snapshot_main_db_file_ok := true, peek_last_valid_frame := 0 })
          (.ok ()) =
        (.error SQLITE_BUSY,
          { noCkptEffects with requestFlush := true, skipSnapshot := true }) :=
  ⟨rfl, checkpoint_zero_frames_skip_snapshot _ (.ok ()) rfl⟩

/-- C2: For every checkpoint call that performs the durability wait (Truncate
mode, session present, nonzero last known frame), if the wait times out the
call returns busy, and if it resolves with an error the call returns an
I/O-write error; in both cases the wrapped checkpoint is never invoked. -/
theorem checkpoint_wait_failure_no_wrapped (r : Replicator)
    (wrappedResult : Except Nat Unit) (h : r.last_known_frame ≠ 0) :
    (r.wait_until_committed = .timeout →
        checkpoint .Truncate (some r) wrappedResult =
          (.error SQLITE_BUSY,
            { noCkptEffects with requestFlush := true, waitCalled := true })) ∧
      (r.wait_until_committed = .err →
        checkpoint .Truncate (some r) wrappedResult =
          (.error SQLITE_IOERR_WRITE,
            { noCkptEffects with requestFlush := true, waitCalled := true })) := by
  constructor <;> intro hw <;>
    simp [checkpoint, CheckpointMode.ltTruncate, CheckpointMode.toNat, h, hw]

/-- Witness for C2: a replicator whose wait times out at frame 100. -/
theorem checkpoint_wait_failure_no_wrapped_witness :
    ({ last_known_frame := 100, wait_until_committed := .timeout,
       is_snapshotted := true, set_page_size_ok := true,
       snapshot_main_db_file_ok := true,
       peek_last_valid_frame := 0 } : Replicator).last_known_frame ≠ 0 ∧
      (({ last_known_frame := 100, wait_until_committed := .timeout,
          is_snapshotted := true, set_page_size_ok := true,
          snapshot_main_db_file_ok := true,
          peek_last_valid_frame := 0 } : Replicator).wait_until_committed = .timeout →
        checkpoint .Truncate
            (some { last_known_frame := 100, wait_until_committed := .timeout,
                    is_snapshotted := true, set_page_size_ok := true,
                    snapshot_main_db_file_ok := true, peek_last_valid_frame := 0 })
            (.ok ()) =
          (.error SQLITE_BUSY,
            { noCkptEffects with requestFlush := true, waitCalled := true })) :=
  ⟨by decide, (checkpoint_wait_failure_no_wrapped _ (.ok ()) (by decide)).1⟩

/-- C8: For every checkpoint call that passes the durability wait but whose
session does not report the previous generation as fully snapshotted, the call
returns busy and the wrapped engine's checkpoint is never invoked. -/
theorem checkpoint_not_snapshotted_busy (r : Replicator)
    (wrappedResult : Except Nat Unit) (h : r.last_known_frame ≠ 0)
    (hw : r.wait_until_committed = .ok) (hs : r.is_snapshotted = false) :
    checkpoint .Truncate (some r) wrappedResult =
      (.error SQLITE_BUSY,
        { noCkptEffects with requestFlush := true, waitCalled := true }) := by
  simp [checkpoint, CheckpointMode.ltTruncate, CheckpointMode.toNat, h, hw, hs]

/-- Witness for C8: the wait succeeds but the previous generation is not
snapshotted. -/
theorem checkpoint_not_snapshotted_busy_witness :
    checkpoint .Truncate
        (some { last_known_frame := 100, wait_until_committed := .ok,
                is_snapshotted := false, set_page_size_ok := true,
                snapshot_main_db_file_ok := true, peek_last_valid_frame := 0 })
        (.ok ()) =
      (.error SQLITE_BUSY,
        { noCkptEffects with requestFlush := true, waitCalled := true }) :=
  checkpoint_not_snapshotted_busy _ (.ok ()) (by decide) rfl rfl

/-- C1: For every checkpoint call, a new generation is started and a full
snapshot of the main database file is triggered if and only if the wrapped
engine's checkpoint is invoked and succeeds. -/
theorem checkpoint_generation_snapshot_iff_wrapped_success (mode : CheckpointMode)
    (repl : Option Replicator) (wrappedResult : Except Nat Unit) :
    ((checkpoint mode repl wrappedResult).2.newGeneration = true ∧
        (checkpoint mode repl wrappedResult).2.snapshotMain = true) ↔
      ((checkpoint mode repl wrappedResult).2.wrappedCheckpoint = true ∧
        wrappedResult = .ok ()) := by
  cases mode <;> cases repl <;>
    simp_all [checkpoint, CheckpointMode.ltTruncate, CheckpointMode.toNat,
      noCkptEffects]
  rename_i r
  rcases r with ⟨lkf, wuc, snap, sps, smdf, plvf⟩
  by_cases hlkf : lkf = 0 <;>
    cases wuc <;> cases snap <;> cases smdf <;> cases wrappedResult <;>
    simp_all

/-- C4: For every insert_frames call in which the wrapped engine succeeds, the
session is present, and the page-size update succeeds, the pre-insert frame
counter is registered as the last valid frame and exactly the post-insert
counter minus the pre-insert counter frames are submitted for replication. -/
theorem insert_frames_submits_delta (w w' : WrappedWal) (n : Nat) (r : Replicator)
    (hps : r.set_page_size_ok = true) (hle : w.framesInWal ≤ w'.framesInWal)
    (hlt : w'.framesInWal < 2 ^ 32) :
    insert_frames w (.ok (n, w')) (some r) =
      (.ok n, w',
        { setPageSize := true,
          registerLastValidFrame := some w.framesInWal,
          submitFrames := some (w'.framesInWal - w.framesInWal) }) := by
  have hsub : u32sub w'.framesInWal w.framesInWal =
      w'.framesInWal - w.framesInWal := by
    unfold u32sub; omega
  simp [insert_frames, hps, hsub]

/-- Witness for C4: counter 3 before, 7 after, 4 frames submitted. -/
theorem insert_frames_submits_delta_witness :
    ({ last_known_frame := 0, wait_until_committed := .ok, is_snapshotted := true,
       set_page_size_ok := true, snapshot_main_db_file_ok := true,
       peek_last_valid_frame := 0 } : Replicator).set_page_size_ok = true ∧
      (⟨3⟩ : WrappedWal).framesInWal ≤ (⟨7⟩ : WrappedWal).framesInWal ∧
      (⟨7⟩ : WrappedWal).framesInWal < 2 ^ 32 ∧
      insert_frames ⟨3⟩ (.ok (4, ⟨7⟩))
          (some { last_known_frame := 0, wait_until_committed := .ok,
                  is_snapshotted := true, set_page_size_ok := true,
                  snapshot_main_db_file_ok := true, peek_last_valid_frame := 0 }) =
        (.ok 4, ⟨7⟩,
          { setPageSize := true, registerLastValidFrame := some 3,
            submitFrames := some 4 }) :=
  ⟨rfl, by decide, by decide,
    insert_frames_submits_delta ⟨3⟩ ⟨7⟩ 4 _ rfl (by decide) (by decide)⟩

/-- C5: For every insert_frames call where the wrapped engine's insert succeeds
but the replication session slot is empty, the call returns an I/O-write error
even though the wrapped engine already advanced to its post-insert state. -/
theorem insert_frames_no_session_err (w w' : WrappedWal) (n : Nat) :
    insert_frames w (.ok (n, w')) none = (.err SQLITE_IOERR_WRITE, w', noInsEffects) :=
  rfl

/-- C9: For every insert_frames call where the wrapped engine's insert fails,
the error is returned verbatim, the wrapped engine stays at its pre-insert
state, and no replicator interaction occurs (no page-size update, no
last-valid-frame registration, no frame submission). -/
theorem insert_frames_wrapped_error_verbatim (w : WrappedWal) (e : Nat)
    (repl : Option Replicator) :
    insert_frames w (.error e) repl = (.err e, w, noInsEffects) :=
  rfl

/-- C10: For every savepoint_undo call in which the wrapped engine succeeds,
the first rollback marker is read unconditionally: the call panics (models as
`none`) exactly when the rollback marker array is empty, so totality requires
a non-empty array. -/
theorem savepoint_undo_panics_iff_empty (rollback_data : List Nat)
    (repl : Option Replicator) :
    savepoint_undo (.ok ()) rollback_data repl = none ↔ rollback_data = [] := by
  cases rollback_data <;> cases repl <;> simp [savepoint_undo]

/-- C7: Whenever the replication session slot is empty, every mutating
operation fails with an I/O-write error rather than proceeding: insert_frames
after a successful local write, savepoint_undo after a successful local undo
(with a non-empty rollback marker array), and Truncate-mode checkpoint. -/
theorem no_session_mutating_ops_fail :
    (∀ (w w' : WrappedWal) (n : Nat),
        (insert_frames w (.ok (n, w')) none).1 = .err SQLITE_IOERR_WRITE) ∧
      (∀ (x : Nat) (xs : List Nat),
        savepoint_undo (.ok ()) (x :: xs) none = some (.error SQLITE_IOERR_WRITE)) ∧
      (∀ wrappedResult : Except Nat Unit,
        (checkpoint .Truncate none wrappedResult).1 = .error SQLITE_IOERR_WRITE) :=
  ⟨fun _ _ _ => rfl, fun _ _ => rfl, fun _ => rfl⟩

end BottomlessWal
